import Mathlib

/-
Shallow embedding of src/umlaut_kb.c (Linux USB input driver for a 4-key
keyboard emitting umlaut characters), together with theorems settling the
behavioural claims about its interrupt-driven decode loop and its lifecycle
entry points (open, close, probe, suspend, resume).

External collaborators (USB core, input core, power management) are modelled
by their outcomes: each call that can fail becomes a parameter carrying its
return value, and each side effect the driver performs on a collaborator is
recorded in an explicit result record.
-/

/- Keycode constants from linux/input-event-codes.h, as used at
   src/umlaut_kb.c lines 43-48 and 155. -/

def KEY_Q : Nat := 16

def KEY_P : Nat := 25

def KEY_Y : Nat := 21

def KEY_S : Nat := 31

def KEY_RIGHTALT : Nat := 100

/- errno constants from the kernel headers (returned negated, as in C). -/

def ENOENT : Int := 2

def ENOMEM : Int := 12

def ENODEV : Int := 19

def EOVERFLOW : Int := 75

def ECONNRESET : Int := 104

def ESHUTDOWN : Int := 108

/-- Base of the recognized scan-code window, src/umlaut_kb.c line 41. -/
def SCAN_BASE : Nat := 0x1E

/-- The static keycode table, src/umlaut_kb.c lines 43-48: a umlaut, o umlaut,
u umlaut, eszett. -/
def keycodes : List Nat := [KEY_Q, KEY_P, KEY_Y, KEY_S]

/-- One call into the input core: input_report_key becomes key code down,
input_sync becomes sync. -/
inductive Event where
  | key : Nat → Bool → Event
  | sync : Event
deriving DecidableEq, Repr

/-- The decode step of the completion callback, src/umlaut_kb.c lines 153-167,
as the list of input-core calls it makes for a given scan code (byte 2 of the
report buffer). In range: modifier down, mapped key down, sync. Zero: all four
table keys up in order, modifier up, sync. Anything else: nothing. -/
def decodeEvents (code : Nat) : List Event :=
  if SCAN_BASE ≤ code ∧ code < SCAN_BASE + keycodes.length then
    [Event.key KEY_RIGHTALT true,
     Event.key (keycodes.getD (code - SCAN_BASE) 0) true,
     Event.sync]
  else if code = 0 then
    (keycodes.map fun k => Event.key k false) ++
      [Event.key KEY_RIGHTALT false, Event.sync]
  else
    []

/-- Observable outcome of one completion-callback invocation:
the input-core calls made, whether usb_submit_urb was attempted at the exit
label, and whether a failed resubmission was logged (dev_err at line 172). -/
structure IrqResult where
  events : List Event
  resubmitted : Bool
  resubmitFailureLogged : Bool
deriving DecidableEq, Repr

/-- The completion callback umlaut_kb_ep_irq, src/umlaut_kb.c lines 126-175.
status is the urb completion status (0 or a negated errno); buf is the 8-byte
report buffer; submitOk tells whether the usb_submit_urb call at the exit
label would succeed. Status 0 decodes byte 2 and falls through to resubmission;
the four benign statuses return immediately; any other status skips decoding
but still resubmits. A resubmission failure is only logged: the callback
returns void and schedules no retry. -/
def umlaut_kb_ep_irq (status : Int) (buf : List Nat) (submitOk : Bool) :
    IrqResult :=
  if status = 0 then
    { events := decodeEvents (buf.getD 2 0),
      resubmitted := true,
      resubmitFailureLogged := !submitOk }
  else if status = -EOVERFLOW ∨ status = -ECONNRESET ∨
      status = -ENOENT ∨ status = -ESHUTDOWN then
    { events := [], resubmitted := false, resubmitFailureLogged := false }
  else
    { events := [], resubmitted := true, resubmitFailureLogged := !submitOk }

theorem decodeEvents_in_range (c : Nat) (h1 : SCAN_BASE ≤ c)
    (h2 : c < SCAN_BASE + 4) :
    decodeEvents c =
      [Event.key KEY_RIGHTALT true,
       Event.key (keycodes.getD (c - SCAN_BASE) 0) true,
       Event.sync] := by
  have hc : SCAN_BASE ≤ c ∧ c < SCAN_BASE + keycodes.length := ⟨h1, h2⟩
  simp [decodeEvents, hc]

theorem decodeEvents_zero :
    decodeEvents 0 =
      [Event.key KEY_Q false, Event.key KEY_P false, Event.key KEY_Y false,
       Event.key KEY_S false, Event.key KEY_RIGHTALT false, Event.sync] := by
  decide

theorem ep_irq_success (buf : List Nat) (submitOk : Bool) :
    umlaut_kb_ep_irq 0 buf submitOk =
      { events := decodeEvents (buf.getD 2 0),
        resubmitted := true,
        resubmitFailureLogged := !submitOk } := by
  simp [umlaut_kb_ep_irq]

/-- The session-visible side effects of the lifecycle entry points:
refcount is the kref of struct umlaut_kb_data (line 58), pmHeld counts
successful usb_autopm_get_interface calls not yet balanced by a put, and
submitted tells whether the interrupt urb is currently submitted. -/
structure SessionState where
  refcount : Nat
  pmHeld : Nat
  submitted : Bool
deriving DecidableEq, Repr

/-- umlaut_kb_open, src/umlaut_kb.c lines 78-108. hasDrvdata is whether
input_get_drvdata returned a session; autopmRet and submitRet are the return
values of usb_autopm_get_interface and usb_submit_urb (0 on success). A
successful autopm call holds the power guarantee (pmHeld increments); a failed
one leaves it unchanged. On submit failure the function jumps to exit and
returns the error WITHOUT a balancing usb_autopm_put_interface. kref_get runs
only after every step succeeded. -/
def umlaut_kb_open (hasDrvdata : Bool) (autopmRet submitRet : Int)
    (s : SessionState) : Int × SessionState :=
  if hasDrvdata = false then
    (-ENODEV, s)
  else if autopmRet ≠ 0 then
    (autopmRet, s)
  else
    if submitRet ≠ 0 then
      (submitRet, { s with pmHeld := s.pmHeld + 1 })
    else
      (0, { s with pmHeld := s.pmHeld + 1, submitted := true, refcount := s.refcount + 1 })

/-- Outcome of umlaut_kb_close: the updated session state and whether
kref_put reached zero and ran umlaut_kb_delete (lines 65-76), releasing the
urb, the device reference and the session storage. -/
structure CloseResult where
  st : SessionState
  freed : Bool
deriving DecidableEq, Repr

/-- umlaut_kb_close, src/umlaut_kb.c lines 110-124: usb_kill_urb cancels the
outstanding transfer, usb_autopm_put_interface releases the power guarantee,
kref_put decrements the refcount and runs umlaut_kb_delete exactly when the
count reaches zero. -/
def umlaut_kb_close (hasDrvdata : Bool) (s : SessionState) : CloseResult :=
  if hasDrvdata = false then
    { st := s, freed := false }
  else
    let s1 : SessionState :=
      { s with submitted := false, pmHeld := s.pmHeld - 1, refcount := s.refcount - 1 }
    { st := s1, freed := s.refcount - 1 == 0 }

/-- umlaut_kb_suspend, src/umlaut_kb.c lines 282-293. hasDev is whether
usb_get_intfdata returned a session; users is the input-core open-consumer
count dev.input.users. With users nonzero the outstanding urb is killed;
otherwise nothing happens. Returns 0 unless no session is attached. -/
def umlaut_kb_suspend (hasDev : Bool) (users : Nat) (s : SessionState) :
    Int × SessionState :=
  if hasDev = false then
    (-ENODEV, s)
  else if users ≠ 0 then
    (0, { s with submitted := false })
  else
    (0, s)

/-- umlaut_kb_resume, src/umlaut_kb.c lines 295-307. With users nonzero it
resubmits the urb and returns the usb_submit_urb result directly; the session
state (refcount, power guarantee) is never touched, so a failed resubmission
is reported to the caller without tearing anything down. -/
def umlaut_kb_resume (hasDev : Bool) (users : Nat) (submitRet : Int)
    (s : SessionState) : Int × SessionState :=
  if hasDev = false then
    (-ENODEV, s)
  else if users ≠ 0 then
    (submitRet, if submitRet = 0 then { s with submitted := true } else s)
  else
    (0, s)

/-- Outcome of umlaut_kb_probe: the returned value, whether the input device
ended up registered (the session is Active), whether any transfer was
submitted, whether the session storage is still allocated after return, and
the kref count of that storage. -/
structure ProbeResult where
  retval : Int
  active : Bool
  submitted : Bool
  sessionLive : Bool
  refcount : Nat
deriving DecidableEq, Repr

/-- umlaut_kb_probe, src/umlaut_kb.c lines 177-261. The three allocations
(kzalloc of the session, usb_alloc_urb, input_allocate_device) may fail;
registerRet is the input_register_device return value. Every failure after
kzalloc goes through the error label: input_free_device plus kref_put, which
drops the initial count of 1 to zero and frees everything. On success the
function returns 0 with the session live at refcount 1; no branch of probe
ever submits the urb (usb_fill_int_urb at line 204 only prepares it). -/
def umlaut_kb_probe (kzallocOk urbAllocOk inputAllocOk : Bool)
    (registerRet : Int) : ProbeResult :=
  if kzallocOk = false then
    { retval := -ENOMEM, active := false, submitted := false,
      sessionLive := false, refcount := 0 }
  else if urbAllocOk = false then
    { retval := -ENOMEM, active := false, submitted := false,
      sessionLive := false, refcount := 0 }
  else if inputAllocOk = false then
    { retval := -ENOMEM, active := false, submitted := false,
      sessionLive := false, refcount := 0 }
  else if registerRet ≠ 0 then
    { retval := registerRet, active := false, submitted := false,
      sessionLive := false, refcount := 0 }
  else
    { retval := 0, active := true, submitted := false,
      sessionLive := true, refcount := 1 }

/-- Two consecutive successful in-range reports (scan code 0x1E twice), as the
concatenated event trace of the two callback invocations. The callback carries
no state from one invocation to the next: struct umlaut_kb_data (lines 51-61)
has no modifier flag, so the second invocation is the same function
application as the first. -/
def twoInRangeDecodes : List Event :=
  (umlaut_kb_ep_irq 0 [0, 0, 0x1E, 0, 0, 0, 0, 0] true).events ++
    (umlaut_kb_ep_irq 0 [0, 0, 0x1E, 0, 0, 0, 0, 0] true).events

theorem decodeEvents_unrecognized (c : Nat) (hz : c ≠ 0)
    (hr : ¬(SCAN_BASE ≤ c ∧ c < SCAN_BASE + 4)) :
    decodeEvents c = [] := by
  have hr2 : ¬(SCAN_BASE ≤ c ∧ c < SCAN_BASE + keycodes.length) := hr
  simp [decodeEvents, hr2, hz]

theorem keycodes_getD_ne_rightalt (d : Nat) (hd : d < 4) :
    keycodes.getD d 0 ≠ KEY_RIGHTALT := by
  interval_cases d <;> decide

theorem count_modifier_down_mod_key_sync (k : Nat) (hk : k ≠ KEY_RIGHTALT) :
    List.count (Event.key KEY_RIGHTALT true)
      [Event.key KEY_RIGHTALT true, Event.key k true, Event.sync] = 1 := by
  simp [List.count_cons, Ne.symm hk]

/-- C1: for every scan code c with SCAN_BASE ≤ c < SCAN_BASE + 4, the
completion callback invoked with status 0 and c in byte 2 of the report buffer
makes exactly the three input-core calls: modifier (KEY_RIGHTALT) down, then
the key mapped at offset c - SCAN_BASE of the keycodes table down, then one
sync, in that order. -/
theorem irq_in_range_emits_mod_key_sync (c : Nat) (buf : List Nat)
    (submitOk : Bool) (h1 : SCAN_BASE ≤ c) (h2 : c < SCAN_BASE + 4)
    (hb : buf.getD 2 0 = c) :
    (umlaut_kb_ep_irq 0 buf submitOk).events =
      [Event.key KEY_RIGHTALT true,
       Event.key (keycodes.getD (c - SCAN_BASE) 0) true,
       Event.sync] := by
  rw [ep_irq_success, hb]
  exact decodeEvents_in_range c h1 h2

theorem irq_in_range_emits_mod_key_sync_witness :
    SCAN_BASE ≤ 0x1E ∧ 0x1E < SCAN_BASE + 4 ∧
      (umlaut_kb_ep_irq 0 [0, 0, 0x1E, 0, 0, 0, 0, 0] true).events =
        [Event.key KEY_RIGHTALT true,
         Event.key (keycodes.getD (0x1E - SCAN_BASE) 0) true,
         Event.sync] :=
  ⟨by decide, by decide,
    irq_in_range_emits_mod_key_sync 0x1E [0, 0, 0x1E, 0, 0, 0, 0, 0] true
      (by decide) (by decide) (by decide)⟩

/-- C2: decoding scan code 0 emits up events for the four table keys in table
order, then the modifier up, then one sync; the callback threads no state, so
the emitted sequence is the same on every invocation regardless of which keys
were previously down, and two consecutive decodes of 0 agree. -/
theorem irq_zero_clears_all_keys (buf : List Nat) (submitOk submitOk2 : Bool)
    (hb : buf.getD 2 0 = 0) :
    (umlaut_kb_ep_irq 0 buf submitOk).events =
      [Event.key KEY_Q false, Event.key KEY_P false, Event.key KEY_Y false,
       Event.key KEY_S false, Event.key KEY_RIGHTALT false, Event.sync] ∧
    (umlaut_kb_ep_irq 0 buf submitOk).events =
      (umlaut_kb_ep_irq 0 buf submitOk2).events := by
  constructor
  · rw [ep_irq_success, hb]
    exact decodeEvents_zero
  · rw [ep_irq_success, ep_irq_success]

theorem irq_zero_clears_all_keys_witness :
    (umlaut_kb_ep_irq 0 [0, 0, 0, 0, 0, 0, 0, 0] true).events =
      [Event.key KEY_Q false, Event.key KEY_P false, Event.key KEY_Y false,
       Event.key KEY_S false, Event.key KEY_RIGHTALT false, Event.sync] :=
  (irq_zero_clears_all_keys [0, 0, 0, 0, 0, 0, 0, 0] true false (by decide)).1

/-- C3 counterexample: the claim predicts that after a first in-range decode
the second consecutive in-range decode does not emit a second modifier-down
event, so the two-invocation trace would hold exactly one modifier-down. The
code has no modifier_active field (struct umlaut_kb_data, lines 51-61) and
calls input_report_key(dev.input, KEY_RIGHTALT, 1) unconditionally at line
155, so the trace of two consecutive decodes of 0x1E holds two. -/
theorem irq_second_in_range_decode_emits_second_modifier_down :
    twoInRangeDecodes.count (Event.key KEY_RIGHTALT true) = 2 := by
  decide

/-- C3 amended: every successful in-range decode emits exactly one
modifier-down event, unconditionally: the driver keeps no modifier_active
boolean, so the emission does not depend on whether the modifier was already
down; deduplication is left to the input core. -/
theorem irq_in_range_always_emits_one_modifier_down (c : Nat) (buf : List Nat)
    (submitOk : Bool) (h1 : SCAN_BASE ≤ c) (h2 : c < SCAN_BASE + 4)
    (hb : buf.getD 2 0 = c) :
    (umlaut_kb_ep_irq 0 buf submitOk).events.count
      (Event.key KEY_RIGHTALT true) = 1 := by
  have hne : keycodes.getD (c - SCAN_BASE) 0 ≠ KEY_RIGHTALT :=
    keycodes_getD_ne_rightalt (c - SCAN_BASE) (by omega)
  rw [ep_irq_success, hb]
  show List.count (Event.key KEY_RIGHTALT true) (decodeEvents c) = 1
  rw [decodeEvents_in_range c h1 h2]
  exact count_modifier_down_mod_key_sync _ hne

theorem irq_in_range_always_emits_one_modifier_down_witness :
    (umlaut_kb_ep_irq 0 [0, 0, 0x21, 0, 0, 0, 0, 0] true).events.count
      (Event.key KEY_RIGHTALT true) = 1 :=
  irq_in_range_always_emits_one_modifier_down 0x21 [0, 0, 0x21, 0, 0, 0, 0, 0]
    true (by decide) (by decide) (by decide)

/-- C4 (code bug witness): with a session attached, the power request granted
and usb_submit_urb failing with -ENOMEM, umlaut_kb_open returns the submit
error and leaves the refcount untouched, but the power-active guarantee is
STILL HELD on return (pmHeld 1): the error path has no
usb_autopm_put_interface, contradicting the claim that open aborts with the
power guarantee released. -/
theorem open_submit_failure_keeps_power_guarantee :
    umlaut_kb_open true 0 (-ENOMEM) ⟨1, 0, false⟩ =
      (-ENOMEM, ⟨1, 1, false⟩) := by
  decide

/-- C5: in the completion callback, the four benign statuses return
immediately with no events and no resubmission; any other nonzero status
skips decoding but still resubmits; a resubmission failure is recorded only
in the log flag, and neither the emitted events nor the decision to resubmit
depend on whether that resubmission succeeds (no propagation, no retry). -/
theorem irq_status_dispatch (status : Int) (buf : List Nat) (ok : Bool) :
    ((status = -EOVERFLOW ∨ status = -ECONNRESET ∨ status = -ENOENT ∨
        status = -ESHUTDOWN) →
      umlaut_kb_ep_irq status buf ok =
        { events := [], resubmitted := false,
          resubmitFailureLogged := false }) ∧
    (status ≠ 0 →
      ¬(status = -EOVERFLOW ∨ status = -ECONNRESET ∨ status = -ENOENT ∨
          status = -ESHUTDOWN) →
      umlaut_kb_ep_irq status buf ok =
        { events := [], resubmitted := true,
          resubmitFailureLogged := !ok }) ∧
    ((umlaut_kb_ep_irq status buf ok).resubmitted = true → ok = false →
      (umlaut_kb_ep_irq status buf ok).resubmitFailureLogged = true) ∧
    (umlaut_kb_ep_irq status buf true).events =
      (umlaut_kb_ep_irq status buf false).events ∧
    (umlaut_kb_ep_irq status buf true).resubmitted =
      (umlaut_kb_ep_irq status buf false).resubmitted := by
  by_cases h0 : status = 0
  · subst h0
    refine ⟨?_, ?_, ?_, ?_, ?_⟩ <;> simp [umlaut_kb_ep_irq]
    decide
  · by_cases hben : status = -EOVERFLOW ∨ status = -ECONNRESET ∨
        status = -ENOENT ∨ status = -ESHUTDOWN
    · refine ⟨?_, ?_, ?_, ?_, ?_⟩ <;>
        simp [umlaut_kb_ep_irq, h0, hben]
    · refine ⟨?_, ?_, ?_, ?_, ?_⟩ <;>
        simp [umlaut_kb_ep_irq, h0, hben]

theorem irq_status_dispatch_witness :
    umlaut_kb_ep_irq (-ECONNRESET) [0, 0, 0, 0, 0, 0, 0, 0] true =
      { events := [], resubmitted := false,
        resubmitFailureLogged := false } :=
  (irq_status_dispatch (-ECONNRESET) [0, 0, 0, 0, 0, 0, 0, 0] true).1
    (by decide)

/-- C6: a successful completion whose scan code is neither 0 nor inside
[SCAN_BASE, SCAN_BASE + 4) makes no input-core call at all, and the transfer
is still resubmitted. -/
theorem irq_unrecognized_code_no_events (buf : List Nat) (ok : Bool)
    (hz : buf.getD 2 0 ≠ 0)
    (hr : ¬(SCAN_BASE ≤ buf.getD 2 0 ∧ buf.getD 2 0 < SCAN_BASE + 4)) :
    (umlaut_kb_ep_irq 0 buf ok).events = [] ∧
    (umlaut_kb_ep_irq 0 buf ok).resubmitted = true := by
  rw [ep_irq_success]
  exact ⟨decodeEvents_unrecognized (buf.getD 2 0) hz hr, rfl⟩

theorem irq_unrecognized_code_no_events_witness :
    (umlaut_kb_ep_irq 0 [0, 0, 5, 0, 0, 0, 0, 0] true).events = [] ∧
    (umlaut_kb_ep_irq 0 [0, 0, 5, 0, 0, 0, 0, 0] true).resubmitted = true :=
  irq_unrecognized_code_no_events [0, 0, 5, 0, 0, 0, 0, 0] true
    (by decide) (by decide)

/-- C7: suspend and resume both return -ENODEV when no session is attached to
the interface; with a session but no open consumer (users = 0) both return 0
and change nothing; with an open consumer, suspend kills the outstanding urb
and returns 0, while resume returns the usb_submit_urb result directly and
never touches the refcount or the power guarantee, so a failed resubmission
is reported without tearing the session down. -/
theorem suspend_resume_behaviour (users : Nat) (submitRet : Int)
    (s : SessionState) :
    (umlaut_kb_suspend false users s = (-ENODEV, s)) ∧
    (umlaut_kb_resume false users submitRet s = (-ENODEV, s)) ∧
    (users = 0 → umlaut_kb_suspend true users s = (0, s)) ∧
    (users = 0 → umlaut_kb_resume true users submitRet s = (0, s)) ∧
    (users ≠ 0 →
      umlaut_kb_suspend true users s = (0, { s with submitted := false })) ∧
    (users ≠ 0 →
      (umlaut_kb_resume true users submitRet s).1 = submitRet ∧
      (umlaut_kb_resume true users submitRet s).2.refcount = s.refcount ∧
      (umlaut_kb_resume true users submitRet s).2.pmHeld = s.pmHeld) := by
  refine ⟨?_, ?_, ?_, ?_, ?_, ?_⟩
  · simp [umlaut_kb_suspend]
  · simp [umlaut_kb_resume]
  · intro hu; simp [umlaut_kb_suspend, hu]
  · intro hu; simp [umlaut_kb_resume, hu]
  · intro hu; simp [umlaut_kb_suspend, hu]
  · intro hu
    by_cases hs : submitRet = 0 <;> simp [umlaut_kb_resume, hu, hs]

theorem suspend_resume_behaviour_witness :
    umlaut_kb_suspend true 1 ⟨2, 1, true⟩ = (0, ⟨2, 1, false⟩) :=
  (suspend_resume_behaviour 1 0 ⟨2, 1, true⟩).2.2.2.2.1 (by decide)

/-- C8: with a session attached, close cancels the outstanding transfer,
releases one power-active hold and decrements the refcount; umlaut_kb_delete
frees the session resources exactly when the count reaches zero (the closer
was the last holder), and never while another holder remains. -/
theorem close_releases_resources_on_last_ref (s : SessionState)
    (h : 1 ≤ s.refcount) :
    (umlaut_kb_close true s).st.submitted = false ∧
    (umlaut_kb_close true s).st.pmHeld = s.pmHeld - 1 ∧
    (umlaut_kb_close true s).st.refcount = s.refcount - 1 ∧
    ((umlaut_kb_close true s).freed = true ↔ s.refcount = 1) ∧
    (1 < s.refcount → (umlaut_kb_close true s).freed = false) := by
  simp only [umlaut_kb_close, Bool.false_eq_true, if_false, beq_iff_eq,
    beq_eq_false_iff_ne, ne_eq]
  refine ⟨rfl, rfl, rfl, ?_, ?_⟩ <;> simp [Nat.beq_eq_true_eq] <;> omega

theorem close_releases_resources_on_last_ref_witness :
    (umlaut_kb_close true ⟨1, 1, true⟩).freed = true :=
  ((close_releases_resources_on_last_ref ⟨1, 1, true⟩ (by decide)).2.2.2.1).mpr
    rfl

/-- C9: when every allocation succeeds but input_register_device fails, probe
surfaces the registration error, the session never becomes active, no transfer
is submitted, and the error path frees the session storage; on success probe
returns 0 with the session live at refcount 1, active, and still with no
transfer submitted. -/
theorem probe_registration_failure_and_success (r : Int) :
    (r ≠ 0 →
      umlaut_kb_probe true true true r =
        { retval := r, active := false, submitted := false,
          sessionLive := false, refcount := 0 }) ∧
    umlaut_kb_probe true true true 0 =
      { retval := 0, active := true, submitted := false,
        sessionLive := true, refcount := 1 } := by
  constructor
  · intro hr; simp [umlaut_kb_probe, hr]
  · simp [umlaut_kb_probe]

theorem probe_registration_failure_and_success_witness :
    umlaut_kb_probe true true true (-22) =
      { retval := -22, active := false, submitted := false,
        sessionLive := false, refcount := 0 } :=
  (probe_registration_failure_and_success (-22)).1 (by decide)

/-- C10: whenever open returns a nonzero value (no session attached, power
request denied, or submit failure), the refcount is exactly what it was
before the call: kref_get is the last step and runs only after every
preceding step succeeded. -/
theorem open_failure_preserves_refcount (hasDrvdata : Bool)
    (autopmRet submitRet : Int) (s : SessionState)
    (h : (umlaut_kb_open hasDrvdata autopmRet submitRet s).1 ≠ 0) :
    (umlaut_kb_open hasDrvdata autopmRet submitRet s).2.refcount =
      s.refcount := by
  by_cases hd : hasDrvdata = false
  · simp [umlaut_kb_open, hd]
  · by_cases ha : autopmRet = 0
    · by_cases hs : submitRet = 0
      · exfalso
        simp [umlaut_kb_open, hd, ha, hs] at h
      · simp [umlaut_kb_open, hd, ha, hs]
    · simp [umlaut_kb_open, hd, ha]

theorem open_failure_preserves_refcount_witness :
    (umlaut_kb_open false 0 0 ⟨1, 0, false⟩).1 ≠ 0 ∧
    (umlaut_kb_open false 0 0 ⟨1, 0, false⟩).2.refcount = 1 :=
  ⟨by decide,
    open_failure_preserves_refcount false 0 0 ⟨1, 0, false⟩ (by decide)⟩
